import Mathlib

/-!
Verification of the kernel-session execution flow of the file-editor widget
(`src/packages/fileeditor/src/widget.ts`).

Part 1 embeds, from the source, the `FileEditor.runPython` control flow
(lines 209-238) and the IOPub handler it installs (lines 219-224), together
with `FileEditor.shutDownKernel` (lines 270-275).  The asynchronous body of
`runPython` is embedded as a labelled transition system whose states are the
suspension points of the `async` function and whose labels are the calls it
makes on its collaborators (`Kernel.getSpecs`, `Kernel.startNew`,
`kernel.requestExecute`, the `onIOPub` callback, `future.done`,
`kernel.shutdown`).

Part 2 models, from the specification, the execution core whose implementing
code (`Kernel.requestExecute`, `Kernel.IKernelConnection.shutdown` in
`packages/services`) is not part of the given sources: session states, the
`execute` contract, the output router and the teardown contract.
-/

/-- A kernel specification as returned by `Kernel.getSpecs` (name and display
metadata). -/
structure KernelSpec where
  name : String
  displayName : String
deriving DecidableEq, Repr

/-- The result of `Kernel.getSpecs`: a mapping from spec names to specs and a
default name (`kernelSpecs.default` / `kernelSpecs.kernelspecs` in the
source). -/
structure SpecsResult where
  default : String
  kernelspecs : List (String × KernelSpec)
deriving DecidableEq, Repr

/-- A kernel connection as returned by `Kernel.startNew`: an identity and the
kernel name (`kernel.name` is used by the teardown log line). -/
structure KernelConnection where
  id : Nat
  name : String
deriving DecidableEq, Repr

/-- The part of an IOPub message content read by the handler: an optional
`name` field (`'name' in msg.content`) and a `text` field. -/
structure MsgContent where
  name : Option String
  text : String
deriving DecidableEq, Repr

/-- An IOPub message as seen by the `onIOPub` callback. -/
structure IOPubMessage where
  content : MsgContent
deriving DecidableEq, Repr

/-- The `onIOPub` handler installed by `runPython` (widget.ts lines 219-224):
the console lines it emits for one message.  The source logs
`'Output:\n' + msg.content.text` when the content has a `name` field equal to
`"stdout"`, and does nothing otherwise. -/
def runPythonOnIOPub (msg : IOPubMessage) : List String :=
  match msg.content.name with
  | some n => if n = "stdout" then ["Output:\n" ++ msg.content.text] else []
  | none => []

/-- The events observable at the collaborator boundaries during one
`runPython` invocation. -/
inductive RunEvent
  | specsResolved (specs : SpecsResult)
  | kernelStarted (name : String) (k : KernelConnection)
  | executeRequested (k : KernelConnection) (code : String)
  | iopubDelivered (k : KernelConnection) (msg : IOPubMessage)
  | futureDone (k : KernelConnection)
  | shutdownRequested (k : KernelConnection)
deriving DecidableEq, Repr

/-- The suspension points of the `async` body of `runPython` (widget.ts lines
209-238). -/
inductive RunState
  | resolvingSpecs
  | startingKernel (specs : SpecsResult)
  | requestingExecute (k : KernelConnection)
  | streaming (k : KernelConnection)
  | tearingDown (k : KernelConnection)
  | finished (k : KernelConnection)
deriving DecidableEq, Repr

/-- One step of `runPython` for a fixed editor text `code`
(`model.value.text`).  The environment chooses the specs result returned by
`getKernelSpecs`, the kernel returned by `startKernel` and the IOPub messages;
the program chooses everything else:
* from the start it awaits `getKernelSpecs()`;
* it then awaits `startKernel({ name: kernelSpecs.default })`;
* it then calls `kernel.requestExecute({ code: code })`;
* while the future is in flight each IOPub message is handed to `onIOPub`;
* when `future.done` resolves it calls `shutDownKernel(kernel)`, which issues
  `kernel.shutdown()`. -/
inductive RunStep (code : String) : RunState → RunEvent → RunState → Prop
  | resolve (specs : SpecsResult) :
      RunStep code .resolvingSpecs (.specsResolved specs) (.startingKernel specs)
  | launch (specs : SpecsResult) (k : KernelConnection) :
      RunStep code (.startingKernel specs) (.kernelStarted specs.default k)
        (.requestingExecute k)
  | exec (k : KernelConnection) :
      RunStep code (.requestingExecute k) (.executeRequested k code) (.streaming k)
  | stream (k : KernelConnection) (msg : IOPubMessage) :
      RunStep code (.streaming k) (.iopubDelivered k msg) (.streaming k)
  | complete (k : KernelConnection) :
      RunStep code (.streaming k) (.futureDone k) (.tearingDown k)
  | teardown (k : KernelConnection) :
      RunStep code (.tearingDown k) (.shutdownRequested k) (.finished k)

/-- A finite trace of `runPython` steps from one state to another, recording
the emitted events in order. -/
inductive RunTrace (code : String) : RunState → List RunEvent → RunState → Prop
  | nil (s : RunState) : RunTrace code s [] s
  | cons {s e s' tr s''} (hstep : RunStep code s e s') (hrest : RunTrace code s' tr s'') :
      RunTrace code s (e :: tr) s''

/-- The exact shape of the event suffix emitted from each program point of a
`runPython` invocation that terminates having acquired kernel `k`. -/
def traceFrom (code : String) (k : KernelConnection) :
    RunState → List RunEvent → Prop
  | .resolvingSpecs, tr =>
      ∃ (specs : SpecsResult) (msgs : List IOPubMessage),
        tr = RunEvent.specsResolved specs ::
             RunEvent.kernelStarted specs.default k ::
             RunEvent.executeRequested k code ::
             (msgs.map (RunEvent.iopubDelivered k) ++
              [RunEvent.futureDone k, RunEvent.shutdownRequested k])
  | .startingKernel specs, tr =>
      ∃ msgs : List IOPubMessage,
        tr = RunEvent.kernelStarted specs.default k ::
             RunEvent.executeRequested k code ::
             (msgs.map (RunEvent.iopubDelivered k) ++
              [RunEvent.futureDone k, RunEvent.shutdownRequested k])
  | .requestingExecute k0, tr =>
      k0 = k ∧ ∃ msgs : List IOPubMessage,
        tr = RunEvent.executeRequested k code ::
             (msgs.map (RunEvent.iopubDelivered k) ++
              [RunEvent.futureDone k, RunEvent.shutdownRequested k])
  | .streaming k0, tr =>
      k0 = k ∧ ∃ msgs : List IOPubMessage,
        tr = msgs.map (RunEvent.iopubDelivered k) ++
             [RunEvent.futureDone k, RunEvent.shutdownRequested k]
  | .tearingDown k0, tr => k0 = k ∧ tr = [RunEvent.shutdownRequested k]
  | .finished k0, tr => k0 = k ∧ tr = []

/-- Every terminating trace of `runPython` has, from each program point, the
suffix shape described by `traceFrom`. -/
theorem runTrace_shape {code : String} {s : RunState} {tr : List RunEvent}
    {s' : RunState} (h : RunTrace code s tr s') :
    ∀ k : KernelConnection, s' = .finished k → traceFrom code k s tr := by
  induction h with
  | nil s =>
      intro k hk
      subst hk
      exact ⟨rfl, rfl⟩
  | cons hstep hrest ih =>
      intro k hk
      have ihk := ih k hk
      cases hstep with
      | resolve specs =>
          obtain ⟨msgs, htr⟩ := ihk
          exact ⟨specs, msgs, by rw [htr]⟩
      | launch specs k0 =>
          obtain ⟨hk0, msgs, htr⟩ := ihk
          subst hk0
          exact ⟨msgs, by rw [htr]⟩
      | exec k0 =>
          obtain ⟨hk0, msgs, htr⟩ := ihk
          subst hk0
          exact ⟨rfl, msgs, by rw [htr]⟩
      | stream k0 msg =>
          obtain ⟨hk0, msgs, htr⟩ := ihk
          subst hk0
          exact ⟨rfl, msg :: msgs, by rw [htr]; rfl⟩
      | complete k0 =>
          obtain ⟨hk0, htr⟩ := ihk
          subst hk0
          exact ⟨rfl, [], by rw [htr]; rfl⟩
      | teardown k0 =>
          obtain ⟨hk0, htr⟩ := ihk
          subst hk0
          exact ⟨rfl, by rw [htr]⟩

/-- Events of a run that are kernel starts (`Kernel.startNew` calls). -/
def isKernelStarted : RunEvent → Bool
  | .kernelStarted _ _ => true
  | _ => false

/-- Events of a run that are execution requests (`kernel.requestExecute`
calls). -/
def isExecuteRequested : RunEvent → Bool
  | .executeRequested _ _ => true
  | _ => false

/-- Events of a run that are kernel shutdown requests (`kernel.shutdown`
calls issued by `shutDownKernel`). -/
def isShutdownRequested : RunEvent → Bool
  | .shutdownRequested _ => true
  | _ => false

theorem filter_map_iopubDelivered (p : RunEvent → Bool) (k : KernelConnection)
    (hp : ∀ m, p (RunEvent.iopubDelivered k m) = false)
    (msgs : List IOPubMessage) :
    (msgs.map (RunEvent.iopubDelivered k)).filter p = [] := by
  induction msgs with
  | nil => rfl
  | cons m rest ih => simp [List.filter_cons, hp, ih]

/-- A concrete kernel spec used to exercise the theorems. -/
def sampleSpec : KernelSpec := { name := "python3", displayName := "Python 3" }

/-- A concrete `Kernel.getSpecs` result used to exercise the theorems. -/
def sampleSpecs : SpecsResult :=
  { default := "python3", kernelspecs := [("python3", sampleSpec)] }

/-- A concrete kernel connection used to exercise the theorems. -/
def sampleKernel : KernelConnection := { id := 0, name := "python3" }

/-- A concrete complete `runPython` event trace. -/
def sampleRunTrace : List RunEvent :=
  [.specsResolved sampleSpecs,
   .kernelStarted "python3" sampleKernel,
   .executeRequested sampleKernel "print(1)",
   .iopubDelivered sampleKernel ⟨⟨some "stdout", "1\n"⟩⟩,
   .futureDone sampleKernel,
   .shutdownRequested sampleKernel]

/-- `sampleRunTrace` is a complete run of `runPython` on the code
`print(1)`. -/
theorem sampleRunTrace_run :
    RunTrace "print(1)" .resolvingSpecs sampleRunTrace (.finished sampleKernel) :=
  RunTrace.cons (RunStep.resolve sampleSpecs)
    (RunTrace.cons (RunStep.launch sampleSpecs sampleKernel)
      (RunTrace.cons (RunStep.exec sampleKernel)
        (RunTrace.cons (RunStep.stream sampleKernel ⟨⟨some "stdout", "1\n"⟩⟩)
          (RunTrace.cons (RunStep.complete sampleKernel)
            (RunTrace.cons (RunStep.teardown sampleKernel)
              (RunTrace.nil _))))))

/-- C1: every complete `runPython` run first resolves the kernel specs, then
starts a session with the resolved default name, then submits exactly the
editor's code for execution, then streams IOPub output while the execution is
in flight, and finally requests the session teardown once the execution's
future completes. -/
theorem runPython_control_flow (code : String) (tr : List RunEvent)
    (k : KernelConnection)
    (h : RunTrace code .resolvingSpecs tr (.finished k)) :
    ∃ (specs : SpecsResult) (msgs : List IOPubMessage),
      tr = RunEvent.specsResolved specs ::
           RunEvent.kernelStarted specs.default k ::
           RunEvent.executeRequested k code ::
           (msgs.map (RunEvent.iopubDelivered k) ++
            [RunEvent.futureDone k, RunEvent.shutdownRequested k]) :=
  runTrace_shape h k rfl

/-- C1 witness: the control-flow theorem applied to a concrete complete
run. -/
theorem runPython_control_flow_witness :
    ∃ (specs : SpecsResult) (msgs : List IOPubMessage),
      sampleRunTrace = RunEvent.specsResolved specs ::
        RunEvent.kernelStarted specs.default sampleKernel ::
        RunEvent.executeRequested sampleKernel "print(1)" ::
        (msgs.map (RunEvent.iopubDelivered sampleKernel) ++
         [RunEvent.futureDone sampleKernel,
          RunEvent.shutdownRequested sampleKernel]) :=
  runPython_control_flow "print(1)" sampleRunTrace sampleKernel sampleRunTrace_run

/-- C9: every complete `runPython` run starts exactly one kernel, submits its
single execution to exactly that kernel, and requests exactly one kernel
shutdown — of that same kernel, as the final event, immediately after the
execution's future completes.  No session from outside the run is ever the
target of the run's execution. -/
theorem runPython_one_kernel_per_run (code : String) (tr : List RunEvent)
    (k : KernelConnection)
    (h : RunTrace code .resolvingSpecs tr (.finished k)) :
    (∃ name, tr.filter isKernelStarted = [RunEvent.kernelStarted name k]) ∧
    tr.filter isExecuteRequested = [RunEvent.executeRequested k code] ∧
    tr.filter isShutdownRequested = [RunEvent.shutdownRequested k] ∧
    ∃ pre, tr = pre ++ [RunEvent.futureDone k, RunEvent.shutdownRequested k] := by
  obtain ⟨specs, msgs, htr⟩ := runTrace_shape h k rfl
  subst htr
  refine ⟨⟨specs.default, ?_⟩, ?_, ?_,
    ⟨RunEvent.specsResolved specs ::
       RunEvent.kernelStarted specs.default k ::
       RunEvent.executeRequested k code ::
       msgs.map (RunEvent.iopubDelivered k), by simp⟩⟩
  · simp only [List.filter_cons, List.filter_append,
      filter_map_iopubDelivered isKernelStarted k (fun m => rfl) msgs]
    simp [isKernelStarted]
  · simp only [List.filter_cons, List.filter_append,
      filter_map_iopubDelivered isExecuteRequested k (fun m => rfl) msgs]
    simp [isExecuteRequested]
  · simp only [List.filter_cons, List.filter_append,
      filter_map_iopubDelivered isShutdownRequested k (fun m => rfl) msgs]
    simp [isShutdownRequested]

/-- C9 witness: the one-kernel-per-run theorem applied to a concrete complete
run. -/
theorem runPython_one_kernel_per_run_witness :
    (∃ name, sampleRunTrace.filter isKernelStarted =
      [RunEvent.kernelStarted name sampleKernel]) ∧
    sampleRunTrace.filter isExecuteRequested =
      [RunEvent.executeRequested sampleKernel "print(1)"] ∧
    sampleRunTrace.filter isShutdownRequested =
      [RunEvent.shutdownRequested sampleKernel] ∧
    ∃ pre, sampleRunTrace = pre ++
      [RunEvent.futureDone sampleKernel,
       RunEvent.shutdownRequested sampleKernel] :=
  runPython_one_kernel_per_run "print(1)" sampleRunTrace sampleKernel
    sampleRunTrace_run

/-- C10: the IOPub handler installed by `runPython` emits console output only
for messages whose content carries a `name` field equal to `"stdout"`; for a
stdout stream message it logs the message text, while stderr stream messages
and messages without a `name` field (such as kernel error messages) produce
no console line at all. -/
theorem runPython_iopub_stdout_only (c : MsgContent) :
    (runPythonOnIOPub ⟨c⟩ ≠ [] → c.name = some "stdout") ∧
    (c.name = some "stdout" →
      runPythonOnIOPub ⟨c⟩ = ["Output:\n" ++ c.text]) ∧
    (c.name = some "stderr" → runPythonOnIOPub ⟨c⟩ = []) ∧
    (c.name = none → runPythonOnIOPub ⟨c⟩ = []) := by
  rcases c with ⟨n, t⟩
  cases n with
  | none => simp [runPythonOnIOPub]
  | some n =>
      by_cases hn : n = "stdout" <;>
        simp [runPythonOnIOPub, hn]

/-- C10 witness: the handler surfaces a concrete stdout message's text. -/
theorem runPython_iopub_stdout_only_witness :
    runPythonOnIOPub ⟨⟨some "stdout", "1\n"⟩⟩ = ["Output:\n" ++ "1\n"] :=
  (runPython_iopub_stdout_only ⟨some "stdout", "1\n"⟩).2.1 rfl

/-!
Part 2: the execution core modelled from the specification.  The code
implementing `execute` and `shutdown` (`Kernel.requestExecute` and the kernel
connection's `shutdown` in `packages/services`) belongs to this repository but
is not under the given sources, so the contracts of spec sections 4.3-4.5 and
7 are modelled directly.
-/

/-- The error taxonomy of spec section 7. -/
inductive ExecError
  | specUnavailable
  | launchFailure
  | invalidArgument
  | sessionBusy
  | sessionClosed
  | teardownFailure
  | transportError
deriving DecidableEq, Repr

/-- The SessionHandle states of spec section 4.5.  `executing` marks a handle
with an outstanding (non-terminal) ExecutionFuture; per the invariant of spec
section 3 a handle has at most one outstanding future, so this single state
suffices. -/
inductive SessionState
  | connecting
  | ready
  | executing
  | closing
  | closed
  | unknown
deriving DecidableEq, Repr

/-- A session handle: identity, kernel name and lifecycle state. -/
structure SessionHandle where
  id : Nat
  name : String
  state : SessionState
deriving DecidableEq, Repr

/-- One in-flight code submission, created by an accepted `execute` call. -/
structure ExecutionFuture where
  sessionId : Nat
  code : String
deriving DecidableEq, Repr

/-- The outcome of an `execute` call: either an ExecutionFuture together with
the updated handle, or a failure value. -/
inductive ExecOutcome
  | accepted (session : SessionHandle) (future : ExecutionFuture)
  | failed (e : ExecError)
deriving DecidableEq, Repr

/-- Whether an `execute` outcome accepted the submission. -/
def ExecOutcome.isAccepted : ExecOutcome → Bool
  | .accepted _ _ => true
  | .failed _ => false

/-- An `execute` call's observable result: the execution request messages sent
over the session transport (each carrying the submitted code) and the
outcome. -/
structure ExecResult where
  sent : List String
  outcome : ExecOutcome
deriving DecidableEq, Repr

/-- Modelled from the spec: `ExecutionRequest.execute` (section 4.3); the
implementing code (`Kernel.requestExecute` in `packages/services`) is not
under the given sources.  `code = none` models a null/undefined argument.
Argument validation comes first: a null/undefined code fails with
`InvalidArgument` and sends nothing.  A handle with an outstanding future
fails fast with `SessionBusy`; a torn-down handle (`closing`, `closed` or
`unknown` — invalid after teardown per section 3, so any use must fail rather
than silently no-op) fails with `SessionClosed`; a handle still `connecting`
is not yet usable and is treated as a transport-level contract violation (the
launcher only ever returns connected handles, section 4.2).  On a `ready`
handle the call sends exactly one execution request message carrying the code
(an empty string is sent as a no-op execution) and returns the future. -/
def execute (session : SessionHandle) (code : Option String) : ExecResult :=
  match code with
  | none => { sent := [], outcome := .failed .invalidArgument }
  | some c =>
    match session.state with
    | .ready =>
        { sent := [c],
          outcome := .accepted { session with state := .executing }
            { sessionId := session.id, code := c } }
    | .executing => { sent := [], outcome := .failed .sessionBusy }
    | .closing => { sent := [], outcome := .failed .sessionClosed }
    | .closed => { sent := [], outcome := .failed .sessionClosed }
    | .unknown => { sent := [], outcome := .failed .sessionClosed }
    | .connecting => { sent := [], outcome := .failed .transportError }

/-- A `shutdown` call's observable result: the updated handle, the failure (if
any) and the number of shutdown requests sent to the backend. -/
structure ShutdownResult where
  session : SessionHandle
  failure : Option ExecError
  backendRequests : Nat
deriving DecidableEq, Repr

/-- Modelled from the spec: `SessionTeardown.shutdown` (section 4.5); the
implementing code (the kernel connection's `shutdown` in `packages/services`)
is not under the given sources.  Exactly one shutdown request is sent to the
backend and never retried; `backendAccepts` is the backend's verdict.  On
acceptance the handle transitions to `Closed`.  On rejection the call fails
with `TeardownFailure` and the handle is left in the `Unknown` state.  What
the caller then does with the failure (spec section 4.5 assigns the logging
to the caller) is the caller's behavior, embedded from the source as
`shutDownKernel` below. -/
def shutdown (s : SessionHandle) (backendAccepts : Bool) : ShutdownResult :=
  if backendAccepts then
    { session := { s with state := .closed },
      failure := none,
      backendRequests := 1 }
  else
    { session := { s with state := .unknown },
      failure := some .teardownFailure,
      backendRequests := 1 }

/-- What one `FileEditor.shutDownKernel` call does: how many shutdown
requests it issues to the backend and which console lines it emits. -/
structure TeardownCallResult where
  backendRequests : Nat
  logLines : List String
deriving DecidableEq, Repr

/-- `FileEditor.shutDownKernel` (widget.ts lines 270-275), embedded from the
source: it issues exactly one `kernel.shutdown()` call and chains only a
fulfillment handler, `console.log('Kernel shut down')`.  No rejection handler
is attached, so when the backend rejects the shutdown nothing is logged, and
the call is not retried. -/
def shutDownKernel (backendAccepts : Bool) : TeardownCallResult :=
  if backendAccepts then
    { backendRequests := 1, logLines := ["Kernel shut down"] }
  else
    { backendRequests := 1, logLines := [] }

/-- The stream channels of an output message (spec section 6). -/
inductive StreamChannel
  | stdout
  | stderr
deriving DecidableEq, Repr

/-- The OutputMessage tagged variant of spec section 3: stream output on a
channel, a kernel error, or execution-complete. -/
inductive OutputMessage
  | streamOutput (channel : StreamChannel) (text : String)
  | errorOutput (ename : String) (evalue : String)
  | executionComplete
deriving DecidableEq, Repr

/-- A message is terminal when it is execution-complete or an error (spec
section 4.4). -/
def OutputMessage.isTerminal : OutputMessage → Bool
  | .streamOutput _ _ => false
  | .errorOutput _ _ => true
  | .executionComplete => true

/-- Modelled from the spec: the delivery discipline of
`OutputRouter.subscribe` (section 4.4); the implementing code (the future's
message dispatch in `packages/services`) is not under the given sources.
Given the messages the transport emits for one future, in order, this is the
sequence of messages actually handed to the subscribed handler: each message
is dispatched as a discrete task until a terminal message is observed; the
terminal message is delivered and the subscription then ends, so no later
message reaches the handler. -/
def routeToHandler : List OutputMessage → List OutputMessage
  | [] => []
  | m :: rest => if m.isTerminal then [m] else m :: routeToHandler rest

/-- The resolution states of an ExecutionFuture. -/
inductive FutureState
  | pending
  | succeeded
  | failed
deriving DecidableEq, Repr

/-- A future state is terminal when the future has resolved. -/
def FutureState.isTerminal : FutureState → Bool
  | .pending => false
  | .succeeded => true
  | .failed => true

/-- Modelled from the spec: the resolution of an ExecutionFuture (sections 3
and 7); the implementing code (the future's reply handling in
`packages/services`) is not under the given sources.  The future resolves
exactly once, at the first terminal message: an error resolves it to the
`failed` terminal state, execution-complete to `succeeded`; stream output
leaves it pending, and a transport that never emits a terminal message leaves
it pending (a caller-visible condition, section 5). -/
def resolveFuture : List OutputMessage → FutureState
  | [] => .pending
  | .errorOutput _ _ :: _ => .failed
  | .executionComplete :: _ => .succeeded
  | .streamOutput _ _ :: rest => resolveFuture rest

/-- A concrete handle in the `ready` state. -/
def readyHandle : SessionHandle := { id := 0, name := "python3", state := .ready }

/-- A concrete handle with an outstanding ExecutionFuture. -/
def busyHandle : SessionHandle := { id := 1, name := "python3", state := .executing }

/-- C2: for every session handle, an execute call with a null/undefined code
fails with `InvalidArgument` and sends no transport message, while an empty
string on a usable handle is accepted and submitted as a no-op execution
(exactly one request message carrying the empty code). -/
theorem execute_null_invalidArgument (s : SessionHandle) :
    ((execute s none).sent = [] ∧
     (execute s none).outcome = .failed .invalidArgument) ∧
    (s.state = .ready →
      (execute s (some "")).sent = [""] ∧
      (execute s (some "")).outcome =
        .accepted { s with state := .executing }
          { sessionId := s.id, code := "" }) := by
  refine ⟨⟨rfl, rfl⟩, fun hs => ?_⟩
  constructor <;> simp [execute, hs]

/-- C2 witness: the empty string is accepted on a concrete ready handle. -/
theorem execute_null_invalidArgument_witness :
    (execute readyHandle (some "")).sent = [""] ∧
    (execute readyHandle (some "")).outcome =
      .accepted { readyHandle with state := .executing }
        { sessionId := readyHandle.id, code := "" } :=
  (execute_null_invalidArgument readyHandle).2 rfl

/-- C3: on a handle with an outstanding (non-terminal) ExecutionFuture, a
second execute call fails fast with `SessionBusy` — it sends nothing and is
never accepted, whatever the code argument. -/
theorem execute_busy_sessionBusy (s : SessionHandle) (h : s.state = .executing) :
    (∀ c : String,
      (execute s (some c)).outcome = .failed .sessionBusy ∧
      (execute s (some c)).sent = []) ∧
    ∀ code : Option String,
      ((execute s code).outcome).isAccepted = false := by
  refine ⟨fun c => ?_, fun code => ?_⟩
  · constructor <;> simp [execute, h]
  · cases code with
    | none => rfl
    | some c => simp [execute, h, ExecOutcome.isAccepted]

/-- C3 witness: a second execute call on a concrete busy handle fails with
`SessionBusy`. -/
theorem execute_busy_sessionBusy_witness :
    (execute busyHandle (some "print(2)")).outcome =
      ExecOutcome.failed .sessionBusy :=
  ((execute_busy_sessionBusy busyHandle rfl).1 "print(2)").1

/-- C4: a successful shutdown leaves the handle in the `Closed` state, and
every subsequent execute call with a string code against it fails with
`SessionClosed`; no execute call against it (null code included) is ever
accepted. -/
theorem shutdown_closed_rejects_execute (s : SessionHandle) :
    (shutdown s true).failure = none ∧
    (shutdown s true).session.state = .closed ∧
    (∀ c : String,
      (execute (shutdown s true).session (some c)).outcome =
        .failed .sessionClosed) ∧
    ∀ code : Option String,
      ((execute (shutdown s true).session code).outcome).isAccepted = false := by
  refine ⟨rfl, rfl, fun c => rfl, fun code => ?_⟩
  cases code <;> rfl

/-- C5: the subscribed handler receives the future's messages until the first
terminal message (execution-complete or error), that terminal message
included, and is never invoked again afterwards for that future. -/
theorem router_stops_at_terminal (pre : List OutputMessage) (t : OutputMessage)
    (post : List OutputMessage)
    (hpre : ∀ m ∈ pre, m.isTerminal = false) (ht : t.isTerminal = true) :
    routeToHandler (pre ++ t :: post) = pre ++ [t] := by
  induction pre with
  | nil => simp [routeToHandler, ht]
  | cons m rest ih =>
      have hm : m.isTerminal = false := hpre m (List.mem_cons_self m rest)
      have hrest : ∀ m' ∈ rest, m'.isTerminal = false :=
        fun m' hm' => hpre m' (List.mem_cons_of_mem m hm')
      simp [routeToHandler, hm, ih hrest]

/-- C5 witness: on a concrete stream, delivery stops exactly at the terminal
message and the later message is never delivered. -/
theorem router_stops_at_terminal_witness :
    routeToHandler
      [OutputMessage.streamOutput StreamChannel.stdout "1\n",
       OutputMessage.executionComplete,
       OutputMessage.streamOutput StreamChannel.stdout "late"] =
    [OutputMessage.streamOutput StreamChannel.stdout "1\n",
     OutputMessage.executionComplete] :=
  router_stops_at_terminal
    [OutputMessage.streamOutput StreamChannel.stdout "1\n"]
    OutputMessage.executionComplete
    [OutputMessage.streamOutput StreamChannel.stdout "late"]
    (by decide) rfl

/-- C7: a failure during an execution (an error message in the future's
stream) still resolves the ExecutionFuture to a terminal state, and the
delivery to the subscriber ends at a terminal message, so the subscriber is
released and the future is not left dangling. -/
theorem failure_resolves_future (msgs : List OutputMessage)
    (ename evalue : String)
    (h : OutputMessage.errorOutput ename evalue ∈ msgs) :
    (resolveFuture msgs).isTerminal = true ∧
    ∃ d t, routeToHandler msgs = d ++ [t] ∧ t.isTerminal = true := by
  induction msgs with
  | nil => cases h
  | cons m rest ih =>
      cases m with
      | streamOutput ch text =>
          have hmem : OutputMessage.errorOutput ename evalue ∈ rest := by
            rcases List.mem_cons.mp h with h1 | h2
            · simp at h1
            · exact h2
          obtain ⟨hres, d, t, hroute, hterm⟩ := ih hmem
          refine ⟨by simpa [resolveFuture] using hres,
            OutputMessage.streamOutput ch text :: d, t, ?_, hterm⟩
          simp [routeToHandler, OutputMessage.isTerminal, hroute]
      | errorOutput e v =>
          exact ⟨rfl, [], OutputMessage.errorOutput e v, rfl, rfl⟩
      | executionComplete =>
          exact ⟨rfl, [], OutputMessage.executionComplete, rfl, rfl⟩

/-- C7 witness: a concrete failing execution resolves its future to a
terminal state. -/
theorem failure_resolves_future_witness :
    (resolveFuture
      [OutputMessage.streamOutput StreamChannel.stdout "x",
       OutputMessage.errorOutput "NameError" "boom"]).isTerminal = true ∧
    ∃ d t,
      routeToHandler
        [OutputMessage.streamOutput StreamChannel.stdout "x",
         OutputMessage.errorOutput "NameError" "boom"] = d ++ [t] ∧
      t.isTerminal = true :=
  failure_resolves_future
    [OutputMessage.streamOutput StreamChannel.stdout "x",
     OutputMessage.errorOutput "NameError" "boom"]
    "NameError" "boom" (by simp)

/-- C6 counterexample: an execute call with a null code sends no execution
request message at all, refuting that every execute call sends exactly
one. -/
theorem execute_zero_messages_on_rejection :
    (execute readyHandle none).sent.length = 0 ∧
    (execute readyHandle none).sent.length ≠ 1 := by
  decide

/-- C6 (amended): every accepted execute call sends exactly one execution
request message over the session transport; a rejected call (invalid
argument, busy, closed) sends none. -/
theorem execute_one_message_when_accepted (s : SessionHandle)
    (code : Option String) :
    ((execute s code).outcome.isAccepted = true →
      (execute s code).sent.length = 1) ∧
    ((execute s code).outcome.isAccepted = false →
      (execute s code).sent = []) := by
  cases code with
  | none => simp [execute, ExecOutcome.isAccepted]
  | some c =>
      cases hstate : s.state <;>
        simp [execute, hstate, ExecOutcome.isAccepted]

/-- C6 witness: an accepted call on a concrete ready handle sends exactly one
message. -/
theorem execute_one_message_when_accepted_witness :
    (execute readyHandle (some "print(1)")).sent.length = 1 :=
  (execute_one_message_when_accepted readyHandle (some "print(1)")).1 rfl

/-- C8 counterexample: when the backend rejects the shutdown request, the
caller in the source — `shutDownKernel`, which attaches only a success
handler — emits no console line at all, refuting that the failure is
logged. -/
theorem shutdown_rejected_not_logged :
    (shutDownKernel false).logLines = [] := by
  decide

/-- C8 (amended): when the backend rejects the shutdown request, the call
fails with `TeardownFailure`, the session is left in the `Unknown` state, and
exactly one backend request is made with no automatic retry; the failure
itself is not logged — the caller attaches only a fulfillment handler, so a
console line is emitted only on a successful shutdown. -/
theorem shutdown_rejected_teardownFailure (s : SessionHandle) :
    (shutdown s false).failure = some .teardownFailure ∧
    (shutdown s false).session.state = .unknown ∧
    (shutdown s false).backendRequests = 1 ∧
    (shutDownKernel false).backendRequests = 1 ∧
    (shutDownKernel false).logLines = [] ∧
    (shutDownKernel true).logLines = ["Kernel shut down"] :=
  ⟨rfl, rfl, rfl, rfl, rfl, rfl⟩
